import Mathlib

/-!
Verification of the `NodeGroup` component of the astchunk repository
(`src/astchunk/node_group.py`) against its natural-language specification.

`ts.Node` (a tree-sitter syntax node, external to the repository) is
embedded as the structure `TsNode`: an immutable view over a byte range
with line/column positions, a `type` tag, and a `text` field holding the
node's slice of the source buffer as a list of byte values.

`NodeGroup` and all of its accessors are translated directly from the
Python source.  Python byte strings become `List Nat` (byte values);
the failing `assert` in `NodeGroup.__init__` becomes an `Except.error`
result of the `construct` function.
-/

/-- Embedding of a tree-sitter point: a (row, column) position in the source. -/
structure TsPoint where
  row : Nat
  col : Nat
deriving DecidableEq, Repr, Inhabited

/-- Embedding of the external `ts.Node`: byte span, position span, node
type tag, and `text`, the node's slice of the source buffer. -/
structure TsNode where
  start_byte : Nat
  end_byte : Nat
  start_point : TsPoint
  end_point : TsPoint
  type : String
  text : List Nat
deriving DecidableEq, Repr, Inhabited

/-- Embedding of Python's `sep.join(pieces)` for a one-byte separator:
joins the pieces with a single `sep` byte between consecutive pieces. -/
def joinWithByte (sep : Nat) : List (List Nat) → List Nat
  | [] => []
  | [x] => x
  | x :: y :: xs => x ++ sep :: joinWithByte sep (y :: xs)

/-- Embedding of `NodeGroup`: groups multiple sibling `TsNode`s into one virtual node
(field `_nodes` as in the source). -/
structure NodeGroup where
  _nodes : List TsNode
deriving DecidableEq, Repr

/-- Embedding of `NodeGroup.__init__`: asserts the node list is non-empty, then stores
it.  The failing assertion is modelled as an `Except.error` carrying the
assertion message. -/
def NodeGroup.construct (nodes : List TsNode) : Except String NodeGroup :=
  if nodes.length > 0 then
    Except.ok ⟨nodes⟩
  else
    Except.error "InvalidGroup: NodeGroup must contain at least one node"

/-- Property `start_byte`: `self._nodes[0].start_byte`. -/
def NodeGroup.start_byte (g : NodeGroup) : Nat :=
  g._nodes.head!.start_byte

/-- Property `end_byte`: `self._nodes[-1].end_byte`. -/
def NodeGroup.end_byte (g : NodeGroup) : Nat :=
  g._nodes.getLast!.end_byte

/-- Property `start_point`: `self._nodes[0].start_point`. -/
def NodeGroup.start_point (g : NodeGroup) : TsPoint :=
  g._nodes.head!.start_point

/-- Property `end_point`: `self._nodes[-1].end_point`. -/
def NodeGroup.end_point (g : NodeGroup) : TsPoint :=
  g._nodes.getLast!.end_point

/-- Property `children`: the grouped nodes themselves. -/
def NodeGroup.children (g : NodeGroup) : List TsNode :=
  g._nodes

/-- Property `type`: the type of the primary (last) node in the group. -/
def NodeGroup.type (g : NodeGroup) : String :=
  g._nodes.getLast!.type

/-- Property `text`: `b"\n".join(n.text for n in self._nodes)` — the
member texts joined with the newline byte `0x0A`. -/
def NodeGroup.text (g : NodeGroup) : List Nat :=
  joinWithByte 10 (g._nodes.map TsNode.text)

/-- Method `__repr__`: builds the debug string from the member types and the
group's byte span. -/
def NodeGroup.repr (g : NodeGroup) : String :=
  "NodeGroup(" ++ toString (g._nodes.map TsNode.type) ++ ", bytes="
    ++ toString g.start_byte ++ ".." ++ toString g.end_byte ++ ")"

/-! ### Method-call embedding

Python property access on an object is a method call that receives the
object and may in principle mutate it.  Each accessor is therefore also
given in state-passing form `NodeGroup → Value × NodeGroup`, translated
from the property body: every body only reads `self._nodes`, performs no
assignment, and returns, so the post-call object is the received one. -/

/-- State-passing form of the `start_byte` property. -/
def NodeGroup.start_byte_call (g : NodeGroup) : Nat × NodeGroup :=
  (g._nodes.head!.start_byte, g)

/-- State-passing form of the `end_byte` property. -/
def NodeGroup.end_byte_call (g : NodeGroup) : Nat × NodeGroup :=
  (g._nodes.getLast!.end_byte, g)

/-- State-passing form of the `start_point` property. -/
def NodeGroup.start_point_call (g : NodeGroup) : TsPoint × NodeGroup :=
  (g._nodes.head!.start_point, g)

/-- State-passing form of the `end_point` property. -/
def NodeGroup.end_point_call (g : NodeGroup) : TsPoint × NodeGroup :=
  (g._nodes.getLast!.end_point, g)

/-- State-passing form of the `children` property. -/
def NodeGroup.children_call (g : NodeGroup) : List TsNode × NodeGroup :=
  (g._nodes, g)

/-- State-passing form of the `type` property. -/
def NodeGroup.type_call (g : NodeGroup) : String × NodeGroup :=
  (g._nodes.getLast!.type, g)

/-- State-passing form of the `text` property. -/
def NodeGroup.text_call (g : NodeGroup) : List Nat × NodeGroup :=
  (joinWithByte 10 (g._nodes.map TsNode.text), g)

/-- State-passing form of the `__repr__` method. -/
def NodeGroup.repr_call (g : NodeGroup) : String × NodeGroup :=
  (g.repr, g)

/-- Embedding of Python byte-string slicing `buf[s:e]`. -/
def sliceBytes (buf : List Nat) (s e : Nat) : List Nat :=
  (buf.drop s).take (e - s)

/-! ### Concrete sample data used in counterexamples and witnesses

The source buffer is the four bytes `[65, 66, 67, 68]` ("ABCD"); the
decorator node covers byte range `[0, 1)` and the definition node covers
`[2, 4)`, leaving a one-byte gap at index 1. -/

/-- Sample node covering bytes `[0, 1)` of the sample buffer. -/
def decoratorNode : TsNode :=
  { start_byte := 0, end_byte := 1, start_point := ⟨0, 0⟩,
    end_point := ⟨0, 1⟩, type := "decorator", text := [65] }

/-- Sample node covering bytes `[2, 4)` of the sample buffer. -/
def defNode : TsNode :=
  { start_byte := 2, end_byte := 4, start_point := ⟨1, 0⟩,
    end_point := ⟨1, 2⟩, type := "function_definition", text := [67, 68] }

/-- Sample source buffer "ABCD". -/
def sampleBuf : List Nat := [65, 66, 67, 68]

/-- Sample member list: the decorator followed by the definition. -/
def sampleNodes : List TsNode := [decoratorNode, defNode]

/-- Sample group built from `sampleNodes`. -/
def sampleGroup : NodeGroup := ⟨sampleNodes⟩

/-! ### Helper lemmas -/

/-- Characterisation of successful construction: it succeeds exactly on
non-empty input and stores the input list unchanged. -/
lemma construct_ok_iff (ns : List TsNode) (g : NodeGroup) :
    NodeGroup.construct ns = Except.ok g ↔ ns ≠ [] ∧ g = ⟨ns⟩ := by
  unfold NodeGroup.construct
  split
  · simp_all [List.length_pos, eq_comm]
  · rename_i hlen
    have hnil : ns = [] := List.eq_nil_of_length_eq_zero (by omega)
    subst hnil
    simp

/-- On a non-empty list, `head!` agrees with `head`. -/
lemma head!_eq_head {α : Type} [Inhabited α] (l : List α) (h : l ≠ []) :
    l.head! = l.head h := by
  cases l with
  | nil => exact absurd rfl h
  | cons a t => rfl

/-- On a non-empty list, `getLast!` agrees with `getLast`. -/
lemma getLast!_eq_getLast {α : Type} [Inhabited α] (l : List α) (h : l ≠ []) :
    l.getLast! = l.getLast h := by
  cases l with
  | nil => exact absurd rfl h
  | cons a t => simp [List.getLast!]

/-- Length of a one-byte-separator join: the sum of the piece lengths
plus one separator between each pair of consecutive pieces. -/
lemma joinWithByte_length (sep : Nat) (ls : List (List Nat)) :
    (joinWithByte sep ls).length = (ls.map List.length).sum + (ls.length - 1) := by
  induction ls with
  | nil => simp [joinWithByte]
  | cons x xs ih =>
    cases xs with
    | nil => simp [joinWithByte]
    | cons y ys =>
      simp only [joinWithByte, List.length_append, List.length_cons,
        List.map_cons, List.sum_cons] at ih ⊢
      omega

/-- Sample member list is non-empty. -/
lemma sampleNodes_ne_nil : sampleNodes ≠ [] := by simp [sampleNodes]

/-! ### Claims -/

/-- Claim C1: constructing a NodeGroup from the empty sequence fails
immediately with the InvalidGroup assertion error, construction succeeds
for every non-empty sequence, and every constructed group contains at
least one element. -/
theorem construct_fails_iff_empty :
    (∃ e, NodeGroup.construct [] = Except.error e) ∧
    (∀ ns : List TsNode, ns ≠ [] → ∃ g, NodeGroup.construct ns = Except.ok g) ∧
    (∀ (ns : List TsNode) (g : NodeGroup),
      NodeGroup.construct ns = Except.ok g → 0 < g._nodes.length) := by
  refine ⟨⟨_, rfl⟩,
    fun ns h => ⟨⟨ns⟩, (construct_ok_iff ns ⟨ns⟩).mpr ⟨h, rfl⟩⟩, ?_⟩
  intro ns g hg
  obtain ⟨h, rfl⟩ := (construct_ok_iff ns g).mp hg
  exact List.length_pos.mpr h

/-- Witness for C1 at the singleton list holding the sample decorator. -/
theorem construct_fails_iff_empty_witness :
    (∃ g, NodeGroup.construct [decoratorNode] = Except.ok g) ∧
    0 < (NodeGroup.mk [decoratorNode])._nodes.length :=
  ⟨construct_fails_iff_empty.2.1 [decoratorNode] (by simp),
   construct_fails_iff_empty.2.2 [decoratorNode] ⟨[decoratorNode]⟩ (by rfl)⟩

/-- Claim C2: for every group constructed from a non-empty sequence,
start_byte and start_point come from the first element and end_byte and
end_point come from the last element. -/
theorem span_from_first_and_last (ns : List TsNode) (h : ns ≠ [])
    (g : NodeGroup) (hg : NodeGroup.construct ns = Except.ok g) :
    g.start_byte = (ns.head h).start_byte ∧
    g.end_byte = (ns.getLast h).end_byte ∧
    g.start_point = (ns.head h).start_point ∧
    g.end_point = (ns.getLast h).end_point := by
  obtain ⟨-, rfl⟩ := (construct_ok_iff ns g).mp hg
  refine ⟨?_, ?_, ?_, ?_⟩ <;>
    simp [NodeGroup.start_byte, NodeGroup.end_byte, NodeGroup.start_point,
      NodeGroup.end_point, head!_eq_head _ h, getLast!_eq_getLast _ h]

/-- Witness for C2 at the sample two-node group. -/
theorem span_from_first_and_last_witness :
    sampleGroup.start_byte = (sampleNodes.head sampleNodes_ne_nil).start_byte ∧
    sampleGroup.end_byte = (sampleNodes.getLast sampleNodes_ne_nil).end_byte ∧
    sampleGroup.start_point
        = (sampleNodes.head sampleNodes_ne_nil).start_point ∧
    sampleGroup.end_point = (sampleNodes.getLast sampleNodes_ne_nil).end_point :=
  span_from_first_and_last sampleNodes sampleNodes_ne_nil sampleGroup (by rfl)

/-- Claim C3: the type of a constructed group is exactly the type of its
last (primary) element, whatever the other elements are. -/
theorem type_is_primary_kind (ns : List TsNode) (h : ns ≠ [])
    (g : NodeGroup) (hg : NodeGroup.construct ns = Except.ok g) :
    g.type = (ns.getLast h).type := by
  obtain ⟨-, rfl⟩ := (construct_ok_iff ns g).mp hg
  simp [NodeGroup.type, getLast!_eq_getLast _ h]

/-- Witness for C3 at the sample two-node group: the group's type is the
definition's type, not the decorator's. -/
theorem type_is_primary_kind_witness :
    sampleGroup.type = (sampleNodes.getLast sampleNodes_ne_nil).type ∧
    sampleGroup.type = "function_definition" :=
  ⟨type_is_primary_kind sampleNodes sampleNodes_ne_nil sampleGroup (by rfl),
   by rfl⟩

/-- Claim C4: the children accessor returns exactly the wrapped element
sequence, in construction order, with nothing dropped, added or
reordered. -/
theorem children_are_members (ns : List TsNode) (g : NodeGroup)
    (hg : NodeGroup.construct ns = Except.ok g) :
    g.children = ns := by
  obtain ⟨-, rfl⟩ := (construct_ok_iff ns g).mp hg
  rfl

/-- Witness for C4 at the sample two-node group. -/
theorem children_are_members_witness :
    sampleGroup.children = sampleNodes :=
  children_are_members sampleNodes sampleGroup (by rfl)

/-- Claim C5: the reconstructed text is the member texts joined with a
single separator byte, so its length is the sum of the member text
lengths plus one separator per adjacent pair. -/
theorem text_joins_member_texts (ns : List TsNode) (g : NodeGroup)
    (hg : NodeGroup.construct ns = Except.ok g) :
    g.text = joinWithByte 10 (ns.map TsNode.text) ∧
    g.text.length = (ns.map (fun n => n.text.length)).sum + (ns.length - 1) := by
  obtain ⟨-, rfl⟩ := (construct_ok_iff ns g).mp hg
  refine ⟨rfl, ?_⟩
  simp only [NodeGroup.text, joinWithByte_length, List.map_map, List.length_map]
  rfl

/-- Witness for C5 at the sample two-node group: two slices of lengths 1
and 2 joined into four bytes. -/
theorem text_joins_member_texts_witness :
    (sampleGroup.text = joinWithByte 10 (sampleNodes.map TsNode.text) ∧
      sampleGroup.text.length
        = (sampleNodes.map (fun n => n.text.length)).sum
            + (sampleNodes.length - 1)) ∧
    sampleGroup.text.length = 4 :=
  ⟨text_joins_member_texts sampleNodes sampleGroup (by rfl), by rfl⟩

/-- Claim C6: the reconstructed text is not authoritative — for the
sample group, whose two members are separated by a one-byte gap and whose
texts agree with their slices of the source buffer, the separator-joined
text differs from the slice of the buffer over the group's byte span. -/
theorem text_disagrees_with_slice_on_gap :
    decoratorNode.text
        = sliceBytes sampleBuf decoratorNode.start_byte decoratorNode.end_byte ∧
    defNode.text = sliceBytes sampleBuf defNode.start_byte defNode.end_byte ∧
    decoratorNode.end_byte < defNode.start_byte ∧
    NodeGroup.construct sampleNodes = Except.ok sampleGroup ∧
    sampleGroup.text
        ≠ sliceBytes sampleBuf sampleGroup.start_byte sampleGroup.end_byte := by
  exact ⟨rfl, rfl, by decide, rfl, by decide⟩

/-- Claim C7: the accessors perform no mutation — in state-passing form
each call on a constructed group returns the group with its stored node
list unchanged, and an immediately repeated call returns an equal value. -/
theorem accessors_do_not_mutate (ns : List TsNode) (g : NodeGroup)
    (_hg : NodeGroup.construct ns = Except.ok g) :
    (g.start_byte_call.2._nodes = g._nodes ∧
      g.start_byte_call.2.start_byte_call.1 = g.start_byte_call.1) ∧
    (g.end_byte_call.2._nodes = g._nodes ∧
      g.end_byte_call.2.end_byte_call.1 = g.end_byte_call.1) ∧
    (g.start_point_call.2._nodes = g._nodes ∧
      g.start_point_call.2.start_point_call.1 = g.start_point_call.1) ∧
    (g.end_point_call.2._nodes = g._nodes ∧
      g.end_point_call.2.end_point_call.1 = g.end_point_call.1) ∧
    (g.children_call.2._nodes = g._nodes ∧
      g.children_call.2.children_call.1 = g.children_call.1) ∧
    (g.type_call.2._nodes = g._nodes ∧
      g.type_call.2.type_call.1 = g.type_call.1) ∧
    (g.text_call.2._nodes = g._nodes ∧
      g.text_call.2.text_call.1 = g.text_call.1) ∧
    (g.repr_call.2._nodes = g._nodes ∧
      g.repr_call.2.repr_call.1 = g.repr_call.1) :=
  ⟨⟨rfl, rfl⟩, ⟨rfl, rfl⟩, ⟨rfl, rfl⟩, ⟨rfl, rfl⟩,
   ⟨rfl, rfl⟩, ⟨rfl, rfl⟩, ⟨rfl, rfl⟩, ⟨rfl, rfl⟩⟩

/-- Witness for C7 at the sample two-node group, projected to the
start_byte accessor. -/
theorem accessors_do_not_mutate_witness :
    sampleGroup.start_byte_call.2._nodes = sampleGroup._nodes ∧
    sampleGroup.start_byte_call.2.start_byte_call.1
        = sampleGroup.start_byte_call.1 :=
  (accessors_do_not_mutate sampleNodes sampleGroup (by rfl)).1

/-- Claim C8: a group constructed from a single node agrees with that
node on every accessor, and its text carries no separator. -/
theorem singleton_transparent (n : TsNode) (g : NodeGroup)
    (hg : NodeGroup.construct [n] = Except.ok g) :
    g.start_byte = n.start_byte ∧ g.end_byte = n.end_byte ∧
    g.start_point = n.start_point ∧ g.end_point = n.end_point ∧
    g.type = n.type ∧ g.children = [n] ∧ g.text = n.text := by
  obtain ⟨-, rfl⟩ := (construct_ok_iff [n] g).mp hg
  refine ⟨rfl, ?_, rfl, ?_, ?_, rfl, rfl⟩ <;>
    simp [NodeGroup.end_byte, NodeGroup.end_point, NodeGroup.type,
      List.getLast!]

/-- Witness for C8 at the singleton group on the sample definition node. -/
theorem singleton_transparent_witness :
    (NodeGroup.mk [defNode]).start_byte = defNode.start_byte ∧
    (NodeGroup.mk [defNode]).end_byte = defNode.end_byte ∧
    (NodeGroup.mk [defNode]).start_point = defNode.start_point ∧
    (NodeGroup.mk [defNode]).end_point = defNode.end_point ∧
    (NodeGroup.mk [defNode]).type = defNode.type ∧
    (NodeGroup.mk [defNode]).children = [defNode] ∧
    (NodeGroup.mk [defNode]).text = defNode.text :=
  singleton_transparent defNode ⟨[defNode]⟩ (by rfl)

/-- Claim C9: construction performs no source-order validation — every
non-empty sequence is accepted, and the out-of-order sample pair yields a
group whose end_byte is strictly below its start_byte. -/
theorem no_source_order_validation :
    (∀ ns : List TsNode, ns ≠ [] → ∃ g, NodeGroup.construct ns = Except.ok g) ∧
    (∃ g, NodeGroup.construct [defNode, decoratorNode] = Except.ok g ∧
      g.end_byte < g.start_byte) := by
  refine ⟨fun ns h => ⟨⟨ns⟩, (construct_ok_iff ns ⟨ns⟩).mpr ⟨h, rfl⟩⟩,
    ⟨⟨[defNode, decoratorNode]⟩, rfl, by decide⟩⟩

/-- Witness for C9 at the out-of-order sample pair. -/
theorem no_source_order_validation_witness :
    ∃ g, NodeGroup.construct [defNode, decoratorNode] = Except.ok g :=
  no_source_order_validation.1 [defNode, decoratorNode] (by simp)

/-- Claim C10: the separator is the newline byte 0x0A — the text of a
constructed group is the newline-join of the stored member texts, its
length is the member lengths' sum plus one per adjacent pair, and in a
group of at least two members the byte right after the first member's
text is 10. -/
theorem separator_is_newline_byte (ns : List TsNode) (g : NodeGroup)
    (hg : NodeGroup.construct ns = Except.ok g) :
    g.text = joinWithByte 10 (g._nodes.map TsNode.text) ∧
    g.text.length
        = (g._nodes.map (fun n => n.text.length)).sum + (g._nodes.length - 1) ∧
    (∀ (n m : TsNode) (rest : List TsNode), ns = n :: m :: rest →
      g.text[n.text.length]? = some 10) := by
  obtain ⟨-, rfl⟩ := (construct_ok_iff ns g).mp hg
  refine ⟨rfl, ?_, ?_⟩
  · simp only [NodeGroup.text, joinWithByte_length, List.map_map,
      List.length_map]
    rfl
  · rintro n m rest rfl
    show (joinWithByte 10
      (TsNode.text n :: TsNode.text m :: rest.map TsNode.text))[n.text.length]?
        = some 10
    rw [joinWithByte, List.getElem?_append_right (Nat.le_refl _)]
    simp

/-- Witness for C10 at the sample two-node group: the byte at index 1 of
the reconstructed text is the newline byte. -/
theorem separator_is_newline_byte_witness :
    sampleGroup.text = joinWithByte 10 (sampleGroup._nodes.map TsNode.text) ∧
    sampleGroup.text.length
        = (sampleGroup._nodes.map (fun n => n.text.length)).sum
            + (sampleGroup._nodes.length - 1) ∧
    sampleGroup.text[decoratorNode.text.length]? = some 10 := by
  have h := separator_is_newline_byte sampleNodes sampleGroup (by rfl)
  exact ⟨h.1, h.2.1, h.2.2 decoratorNode defNode [] (by rfl)⟩
